import Mathlib

/-!
Verification of the Lucky Paw Spin automation script (`spin.py`).

The script is a sequential Python program: it loads a small persisted JSON
record (`last_spin.json`), decides via an eligibility gate (`should_spin`)
whether at least `SPIN_INTERVAL_HOURS` have elapsed since the recorded last
spin, drives a browser through a fixed sequence of UI interactions
(`perform_spin`), and persists a fresh record (`save_last_spin`) on success
of a non-test run.

This file is a shallow embedding of that program:

* Wall-clock instants are modelled as rationals measured in hours, so the
  gate's comparison `elapsed >= timedelta(hours=SPIN_INTERVAL_HOURS)` is the
  plain comparison `now - t ≥ interval`.
* The stored `last_spin` JSON field is abstracted by its parse outcome:
  `null` for a JSON null (or an absent file, where `load_last_spin` returns
  a null field), `valid t` for an ISO-8601 string denoting the instant `t`,
  and `malformed s` for a string `s` that `datetime.fromisoformat` rejects
  with a `ValueError`.
* Python exceptions are modelled with `Except PyExn`, where a `PyExn`
  carries the exception message; the script's top level distinguishes
  failures only by a case-insensitive substring test on that message.
* A page is a static snapshot: a list of frames (`page.frames`, main frame
  first, as Playwright enumerates it), each frame mapping CSS selectors to
  the list of elements it matches (in DOM order), plus the visibility-gated
  text of the two result nodes. Browser waits do not change the snapshot.
-/

namespace LuckyPaw

/-- A Python exception, identified by its message string (the script's
`main` distinguishes exceptions only by substring-matching `str(e)`). -/
structure PyExn where
  msg : String
deriving DecidableEq

/-- The stored `last_spin` JSON field, abstracted by the outcome of
`datetime.fromisoformat` on it: a JSON `null`, a parsable ISO-8601 string
denoting instant `t` (in hours), or an unparsable string `s`. -/
inductive StoredTimestamp where
  | null : StoredTimestamp
  | valid (t : ℚ) : StoredTimestamp
  | malformed (s : String) : StoredTimestamp
deriving DecidableEq

/-- The persisted record in `last_spin.json`: the `last_spin` field and the
`result` field (the scraped prize text, or JSON null). -/
structure SpinRecord where
  last_spin : StoredTimestamp
  result : Option String
deriving DecidableEq

/-- `SPIN_INTERVAL_HOURS = 24.25` from the configuration section. -/
def SPIN_INTERVAL_HOURS : ℚ := (97 : ℚ) / 4

/-- `load_last_spin`: if the file exists return its parsed contents,
otherwise the default record with a null `last_spin` and null `result`.
The file system is modelled by `Option SpinRecord` (`none` = file absent). -/
def load_last_spin (file : Option SpinRecord) : SpinRecord :=
  match file with
  | some data => data
  | none => { last_spin := StoredTimestamp.null, result := none }

/-- `datetime.fromisoformat` applied to the stored field: a parsable string
yields its instant, an unparsable string raises `ValueError`, and a
non-string (the `null` case, unreachable in `should_spin` because `None` is
checked first) raises `TypeError`. -/
def fromisoformat : StoredTimestamp → Except PyExn ℚ
  | StoredTimestamp.valid t => Except.ok t
  | StoredTimestamp.malformed s =>
      Except.error { msg := "Invalid isoformat string: " ++ s }
  | StoredTimestamp.null =>
      Except.error { msg := "fromisoformat: argument must be str" }

/-- `should_spin`, generalised over the configured interval (in hours):
load the record; if the `last_spin` field is `None`, return `True`;
otherwise parse it (any parse error propagates — there is no try/except in
the source) and return whether `now - last_spin_time >= timedelta(hours=interval)`. -/
def should_spin_gen (interval : ℚ) (now : ℚ) (file : Option SpinRecord) :
    Except PyExn Bool :=
  let data := load_last_spin file
  let last_spin := data.last_spin
  if last_spin = StoredTimestamp.null then
    Except.ok true
  else
    match fromisoformat last_spin with
    | Except.error e => Except.error e
    | Except.ok last_spin_time =>
        let elapsed := now - last_spin_time
        let required := interval
        Except.ok (decide (elapsed ≥ required))

/-- `should_spin` as in the source, with the configured 24.25-hour interval. -/
def should_spin (now : ℚ) (file : Option SpinRecord) : Except PyExn Bool :=
  should_spin_gen SPIN_INTERVAL_HOURS now file

/-- `save_last_spin`: the freshly written record — the current instant as a
(valid) ISO timestamp together with the optional result text. -/
def save_last_spin (now : ℚ) (result : Option String) : SpinRecord :=
  { last_spin := StoredTimestamp.valid now, result := result }

/-- A DOM element, reduced to the two observables the script uses: its
visibility and an identity tag (to tell elements apart). -/
structure Element where
  visible : Bool
  tag : Nat
deriving DecidableEq

/-- A CSS selector. -/
abbrev Selector := String

/-- An execution context (the main document or an embedded iframe): a
finite map from selectors to the elements they match, in DOM order.
`frame.locator(sel)` yields the associated list (empty if absent). -/
structure Frame where
  entries : List (Selector × List Element)
deriving DecidableEq

/-- `frame.locator(sel)`: the elements matching `sel` in this frame. -/
def Frame.query (f : Frame) (sel : Selector) : List Element :=
  (List.lookup sel f.entries).getD []

/-- `EMAIL_INPUT_SELECTORS` from the configuration section. -/
def EMAIL_INPUT_SELECTORS : List Selector := ["#email_input_text"]

/-- `SPIN_BUTTON_SELECTORS` from the configuration section. -/
def SPIN_BUTTON_SELECTORS : List Selector :=
  ["#spin-button",
   "button:has-text(\x27SPIN\x27)",
   "button[type=\x27submit\x27]",
   "input[type=\x27submit\x27]",
   "[class*=\x27spin\x27 i] button"]

/-- The inner loop of the email-input search (`spin.py` lines 242-254):
try each selector in declared order; on the first selector whose locator
has `count > 0`, take `inputs.first`. Visibility is not consulted. -/
def find_email_in_frame (f : Frame) : List Selector → Option Element
  | [] => none
  | sel :: rest =>
      match f.query sel with
      | [] => find_email_in_frame f rest
      | e :: _ => some e

/-- The outer loop of the email-input search (`spin.py` lines 238-257):
scan `page.frames` in enumeration order (main frame first, then nested
frames); the first frame yielding an element wins, and becomes
`target_frame` together with the found `email_input`. -/
def locate_email (frames : List Frame) (selectors : List Selector) :
    Option (Frame × Element) :=
  match frames with
  | [] => none
  | f :: rest =>
      match find_email_in_frame f selectors with
      | some e => some (f, e)
      | none => locate_email rest selectors

/-- The spin-button search (`spin.py` lines 300-311): only `target_frame`
is scanned; for each selector in order, take `.first` and require
`count > 0 and btn.is_visible()`; otherwise move to the next selector. -/
def find_button (f : Frame) : List Selector → Option Element
  | [] => none
  | sel :: rest =>
      match f.query sel with
      | [] => find_button f rest
      | e :: _ => if e.visible then some e else find_button f rest

/-- A static snapshot of the loyalty page: whether navigation succeeds,
the frame list, and the text of `#win_header_text` / `#win_text` when
visible (`none` when absent or invisible). -/
structure Page where
  nav_ok : Bool
  frames : List Frame
  win_header : Option String
  win_text : Option String
deriving DecidableEq

/-- The result-scraping block (`spin.py` lines 349-372): the header text if
visible, then the win text appended with `" - "` when both are present. -/
def scrape_result (p : Page) : Option String :=
  match p.win_header, p.win_text with
  | some h, some w => some (h ++ " - " ++ w)
  | some h, none => some h
  | none, some w => some w
  | none, none => none

/-- Message of the `PlaywrightTimeout` raised when `page.goto` times out. -/
def navTimeoutMsg : String := "Timeout 60000ms exceeded."

/-- Message of the `PlaywrightTimeout` raised by
`email_input.wait_for(state="visible", timeout=10000)` when the selected
input never becomes visible. -/
def waitVisibleTimeoutMsg : String := "Timeout 10000ms exceeded."

/-- Message of the exception raised at `spin.py` line 286 when no
context/candidate pair matches the email input. -/
def wheelNotAvailableMsg : String :=
  "Spin wheel not available - email input not found (wheel may appear after 24 hours)"

/-- Message of the exception raised at `spin.py` line 336 when the spin
button is not found in `target_frame`. -/
def noSpinButtonMsg : String :=
  "Could not find spin/submit button"

/-- `perform_spin`: navigate (a timeout propagates), locate the email input
across all frames (raising the wheel-not-available exception when absent),
wait for it to be visible (a timeout propagates), locate the spin button in
the target frame (raising when absent), click, and scrape the result.
Returns the scraped result text, `none` when no result text was captured. -/
def perform_spin (email : String) (p : Page) : Except PyExn (Option String) :=
  -- the email is typed into the located input; the static snapshot does not
  -- observe the fill, so the value is unused beyond being required
  let _filled := email
  if p.nav_ok then
    match locate_email p.frames EMAIL_INPUT_SELECTORS with
    | none => Except.error { msg := wheelNotAvailableMsg }
    | some (target_frame, email_input) =>
        if email_input.visible then
          match find_button target_frame SPIN_BUTTON_SELECTORS with
          | none => Except.error { msg := noSpinButtonMsg }
          | some _ => Except.ok (scrape_result p)
        else Except.error { msg := waitVisibleTimeoutMsg }
  else Except.error { msg := navTimeoutMsg }

/-- The two command-line flags relevant to control flow (`--test`, `--force`).
The remaining flags (`--no-headless`, `--debug`, `--pause`) only affect
browser presentation and screenshots, which the model does not observe. -/
structure Args where
  test : Bool
  force : Bool
deriving DecidableEq

/-- The alphabet `string.ascii_lowercase + string.digits` sampled by
`generate_random_email`. -/
def ALPHABET : String := "abcdefghijklmnopqrstuvwxyz0123456789"

/-- `random.choices(ALPHABET, k=k)`: draw `k` characters from the alphabet,
indexed by a stream of random draws. -/
def random_choices (randSrc : List Nat) (k : Nat) : List Char :=
  (randSrc.take k).map (fun i => ALPHABET.data.getD (i % 36) 'a')

/-- `generate_random_email`: a random 10-character string is sampled and then
discarded (the randomised return is commented out in the source); the fixed
address is returned unconditionally. -/
def generate_random_email (randSrc : List Nat) : String :=
  let _random_str : String := String.mk (random_choices randSrc 10)
  "ginaf97689@noihse.com"

/-- ASCII lowercasing of one character, as Python's `str.lower` acts on the
ASCII exception messages of this script. -/
def lowerChar (c : Char) : Char :=
  if 65 ≤ c.toNat ∧ c.toNat ≤ 90 then Char.ofNat (c.toNat + 32) else c

/-- `s.lower()` on the (ASCII) exception messages. -/
def lowerStr (s : String) : String := String.mk (s.data.map lowerChar)

/-- Helper for the substring test: does `pat` occur as a contiguous
subsequence of the character list? -/
def infixAux (pat : List Char) : List Char → Bool
  | [] => pat.isEmpty
  | c :: rest => pat.isPrefixOf (c :: rest) || infixAux pat rest

/-- Python's `pat in s` on strings: `pat` occurs as a substring of `s`. -/
def py_str_in (pat s : String) : Bool := infixAux pat.data s.data

/-- Email resolution at the top of `main`: with `--test`, the generated
address; otherwise the `FWP_EMAIL` environment variable, where an unset or
empty (falsy) value means the script prints an error and exits with code 1. -/
def resolve_email (a : Args) (env : Option String) (randSrc : List Nat) :
    Option String :=
  if a.test then some (generate_random_email randSrc)
  else
    match env with
    | none => none
    | some e => if e = "" then none else some e

/-- The observable outcome of one `main` run: the process exit code, the
final contents of `last_spin.json`, whether `perform_spin` was invoked, and
whether the eligibility gate `should_spin` was consulted. -/
structure RunResult where
  exit_code : Nat
  file : Option SpinRecord
  attempted : Bool
  gate_checked : Bool
deriving DecidableEq

/-- The `try`/`except` block of `main` around `perform_spin`: on success,
save the fresh record unless `--test` was given; on an exception, exit 0
when `"not available"` occurs in the lowercased message (benign
wheel-not-ready outcome), else exit 1. -/
def run_attempt (a : Args) (email : String) (now : ℚ) (file : Option SpinRecord)
    (p : Page) (gate_checked : Bool) : RunResult :=
  match perform_spin email p with
  | Except.ok result =>
      if a.test = false then
        { exit_code := 0, file := some (save_last_spin now result),
          attempted := true, gate_checked := gate_checked }
      else
        { exit_code := 0, file := file,
          attempted := true, gate_checked := gate_checked }
  | Except.error e =>
      if py_str_in "not available" (lowerStr e.msg) then
        { exit_code := 0, file := file,
          attempted := true, gate_checked := gate_checked }
      else
        { exit_code := 1, file := file,
          attempted := true, gate_checked := gate_checked }

/-- `main`: resolve the email (exit 1 when unavailable); when neither
`--force` nor `--test` is set, consult `should_spin` (an uncaught exception
from it terminates the process with code 1; an ineligible result exits 0
without spinning); then run the spin attempt and map its outcome as in
`run_attempt`. -/
def main_run (a : Args) (env : Option String) (randSrc : List Nat) (now : ℚ)
    (file : Option SpinRecord) (p : Page) : RunResult :=
  match resolve_email a env randSrc with
  | none =>
      { exit_code := 1, file := file, attempted := false, gate_checked := false }
  | some email =>
      if !a.force && !a.test then
        match should_spin now file with
        | Except.error _ =>
            { exit_code := 1, file := file, attempted := false, gate_checked := true }
        | Except.ok false =>
            { exit_code := 0, file := file, attempted := false, gate_checked := true }
        | Except.ok true => run_attempt a email now file p true
      else run_attempt a email now file p false

/-- Modelled from the spec: the flattened search order of the Locator —
execution contexts outer-to-inner (main frame first, then nested frames in
discovery order), and within each context the candidates in declared
priority order, each candidate contributing its matches in DOM order. -/
def spec_flat_query (f : Frame) : List Selector → List Element
  | [] => []
  | sel :: rest => f.query sel ++ spec_flat_query f rest

/-- Modelled from the spec: the full outer-to-inner, priority-ordered
enumeration of (context, matching element) pairs. -/
def spec_search_order : List Frame → List Selector → List (Frame × Element)
  | [], _ => []
  | f :: rest, selectors =>
      (spec_flat_query f selectors).map (fun e => (f, e))
        ++ spec_search_order rest selectors

/-- Modelled from the spec: "the first element that (a) matches some
candidate, (b) is visible, found by scanning contexts outer-to-inner, and
within each context scanning candidates in priority order". -/
def spec_first_visible_match (frames : List Frame) (selectors : List Selector) :
    Option (Frame × Element) :=
  (spec_search_order frames selectors).find? (fun fe => fe.2.visible)

/-- Modelled from the spec with the visibility requirement dropped: the
first matching element in the outer-to-inner, priority-ordered enumeration. -/
def spec_first_match (frames : List Frame) (selectors : List Selector) :
    Option (Frame × Element) :=
  (spec_search_order frames selectors).head?

/-! Concrete fixtures used by counterexamples and witnesses. -/

/-- A frame whose only email-input match is invisible. -/
def cexFrameOuter : Frame :=
  { entries := [("#email_input_text", [{ visible := false, tag := 0 }])] }

/-- A frame whose only email-input match is visible. -/
def cexFrameInner : Frame :=
  { entries := [("#email_input_text", [{ visible := true, tag := 1 }])] }

/-- A frame containing a visible email input and a visible spin button. -/
def goodFrame : Frame :=
  { entries := [("#email_input_text", [{ visible := true, tag := 0 }]),
                ("#spin-button", [{ visible := true, tag := 1 }])] }

/-- A page where the whole flow succeeds and both result nodes are visible. -/
def goodPage : Page :=
  { nav_ok := true, frames := [goodFrame],
    win_header := some "CONGRATULATIONS!", win_text := some "Prize" }

/-- A successful page where no result text is ever visible. -/
def goodPageNoResult : Page :=
  { nav_ok := true, frames := [goodFrame], win_header := none, win_text := none }

/-- A page that loads but contains no email input in any frame. -/
def noWheelPage : Page :=
  { nav_ok := true, frames := [{ entries := [] }],
    win_header := none, win_text := none }

/-! Helper lemmas shared by the claim theorems. -/

theorem find_email_in_frame_eq_head (f : Frame) (selectors : List Selector) :
    find_email_in_frame f selectors = (spec_flat_query f selectors).head? := by
  induction selectors with
  | nil => rfl
  | cons sel rest ih =>
      cases hq : f.query sel with
      | nil => simp [find_email_in_frame, spec_flat_query, hq, ih]
      | cons e es => simp [find_email_in_frame, spec_flat_query, hq]

theorem run_attempt_attempted (a : Args) (email : String) (now : ℚ)
    (file : Option SpinRecord) (p : Page) (gc : Bool) :
    (run_attempt a email now file p gc).attempted = true := by
  unfold run_attempt
  cases perform_spin email p with
  | ok r => dsimp only; split <;> rfl
  | error e => dsimp only; split <;> rfl

theorem run_attempt_gate_checked (a : Args) (email : String) (now : ℚ)
    (file : Option SpinRecord) (p : Page) (gc : Bool) :
    (run_attempt a email now file p gc).gate_checked = gc := by
  unfold run_attempt
  cases perform_spin email p with
  | ok r => dsimp only; split <;> rfl
  | error e => dsimp only; split <;> rfl

theorem run_attempt_file_test_mode (a : Args) (email : String) (now : ℚ)
    (file : Option SpinRecord) (p : Page) (gc : Bool)
    (htest : a.test = true) :
    (run_attempt a email now file p gc).file = file := by
  unfold run_attempt
  cases perform_spin email p with
  | ok r => simp [htest]
  | error e => dsimp only; split <;> rfl

theorem run_attempt_exit_code_ok (a : Args) (email : String) (now : ℚ)
    (file : Option SpinRecord) (p : Page) (gc : Bool) (r : Option String)
    (h : perform_spin email p = Except.ok r) :
    (run_attempt a email now file p gc).exit_code = 0 := by
  unfold run_attempt
  rw [h]
  by_cases ht : a.test = false <;> simp [ht]

theorem main_run_reaches_attempt (a : Args) (env : Option String)
    (randSrc : List Nat) (now : ℚ) (file : Option SpinRecord) (p : Page)
    (email : String)
    (hres : resolve_email a env randSrc = some email)
    (hgate : a.force = true ∨ a.test = true ∨ should_spin now file = Except.ok true) :
    main_run a env randSrc now file p
      = run_attempt a email now file p (!a.force && !a.test) := by
  unfold main_run
  rw [hres]
  by_cases hc : (!a.force && !a.test) = true
  · obtain ⟨hf, ht⟩ := (Bool.and_eq_true _ _).mp hc
    have hforce : a.force = false := by simpa using hf
    have htest : a.test = false := by simpa using ht
    have hss : should_spin now file = Except.ok true := by
      rcases hgate with h | h | h
      · rw [hforce] at h; exact absurd h (by simp)
      · rw [htest] at h; exact absurd h (by simp)
      · exact h
    simp [hc, hss]
  · have hc' : (!a.force && !a.test) = false := by
      revert hc; cases (!a.force && !a.test) <;> simp
    simp [hc']

theorem main_run_gate_checked_eq (a : Args) (env : Option String)
    (randSrc : List Nat) (now : ℚ) (file : Option SpinRecord) (p : Page) :
    (main_run a env randSrc now file p).gate_checked
      = ((resolve_email a env randSrc).isSome && (!a.force && !a.test)) := by
  unfold main_run
  cases hr : resolve_email a env randSrc with
  | none => rfl
  | some email =>
      by_cases hc : (!a.force && !a.test) = true
      · simp only [hc, Option.isSome_some, Bool.true_and, if_true]
        cases hss : should_spin now file with
        | error e => rfl
        | ok b =>
            cases b with
            | false => rfl
            | true => exact run_attempt_gate_checked a email now file p true
      · have hc' : (!a.force && !a.test) = false := by
          revert hc; cases (!a.force && !a.test) <;> simp
        simp [hc', run_attempt_gate_checked]

/-! The claims. -/

/-- Claim C1: for every stored timestamp `t` and configured minimum interval
`i`, the eligibility gate returns eligible iff `now - t ≥ i`, and returns
eligible unconditionally when no timestamp is stored — both when the
persisted file is absent and when its `last_spin` field is null. -/
theorem C1_gate_eligibility_iff (i now t : ℚ) (r : Option String) :
    (should_spin_gen i now (some { last_spin := StoredTimestamp.valid t, result := r })
        = Except.ok true ↔ now - t ≥ i)
    ∧ should_spin_gen i now none = Except.ok true
    ∧ should_spin_gen i now (some { last_spin := StoredTimestamp.null, result := r })
        = Except.ok true := by
  refine ⟨?_, rfl, rfl⟩
  simp [should_spin_gen, load_last_spin, fromisoformat]

/-- Claim C2 counterexample: a stored record whose timestamp string is
unparsable is not treated as a missing record — `should_spin` propagates the
`ValueError` from `datetime.fromisoformat` (there is no try/except around
it) instead of returning eligible. -/
theorem C2_counterexample :
    should_spin 0 (some { last_spin := StoredTimestamp.malformed "garbage", result := none })
      = Except.error { msg := "Invalid isoformat string: garbage" }
    ∧ should_spin 0 (some { last_spin := StoredTimestamp.malformed "garbage", result := none })
      ≠ Except.ok true := by
  constructor
  · rfl
  · simp [show should_spin 0
        (some { last_spin := StoredTimestamp.malformed "garbage", result := none })
        = Except.error { msg := "Invalid isoformat string: garbage" } from rfl]

/-- Claim C2 amended: a malformed or unparsable stored timestamp string makes
the gate raise (propagate the parse error); in a run with neither `--force`
nor `--test`, the uncaught exception terminates the process with exit code 1
before any spin attempt, leaving the file unchanged. Only an absent file or
a null `last_spin` field is treated as "no prior record". -/
theorem C2_malformed_timestamp_raises (now : ℚ) (s : String) (r : Option String)
    (a : Args) (env : Option String) (randSrc : List Nat) (p : Page)
    (hforce : a.force = false) (htest : a.test = false)
    (hres : (resolve_email a env randSrc).isSome = true) :
    should_spin now (some { last_spin := StoredTimestamp.malformed s, result := r })
      = Except.error { msg := "Invalid isoformat string: " ++ s }
    ∧ main_run a env randSrc now
        (some { last_spin := StoredTimestamp.malformed s, result := r }) p
      = { exit_code := 1,
          file := some { last_spin := StoredTimestamp.malformed s, result := r },
          attempted := false, gate_checked := true } := by
  have hgate : should_spin now (some { last_spin := StoredTimestamp.malformed s, result := r })
      = Except.error { msg := "Invalid isoformat string: " ++ s } := by
    simp [should_spin, should_spin_gen, load_last_spin, fromisoformat]
  refine ⟨hgate, ?_⟩
  obtain ⟨email, hemail⟩ := Option.isSome_iff_exists.mp hres
  unfold main_run
  rw [hemail]
  simp [hforce, htest, hgate]

/-- Witness for the amended C2 at a concrete malformed record. -/
theorem C2_malformed_timestamp_raises_witness :
    should_spin 5 (some { last_spin := StoredTimestamp.malformed "garbage", result := none })
      = Except.error { msg := "Invalid isoformat string: " ++ "garbage" }
    ∧ main_run { test := false, force := false } (some "user@example.com") [] 5
        (some { last_spin := StoredTimestamp.malformed "garbage", result := none }) noWheelPage
      = { exit_code := 1,
          file := some { last_spin := StoredTimestamp.malformed "garbage", result := none },
          attempted := false, gate_checked := true } :=
  C2_malformed_timestamp_raises 5 "garbage" none { test := false, force := false }
    (some "user@example.com") [] noWheelPage rfl rfl rfl

/-- Claim C3 counterexample: the email-input locator does not return the
first *visible* matching element. With an invisible match in the outer
context and a visible match in the nested context, the code selects the
outer invisible element, while the first visible match is the inner one. -/
theorem C3_counterexample :
    locate_email [cexFrameOuter, cexFrameInner] EMAIL_INPUT_SELECTORS
        = some (cexFrameOuter, { visible := false, tag := 0 })
    ∧ spec_first_visible_match [cexFrameOuter, cexFrameInner] EMAIL_INPUT_SELECTORS
        = some (cexFrameInner, { visible := true, tag := 1 })
    ∧ locate_email [cexFrameOuter, cexFrameInner] EMAIL_INPUT_SELECTORS
        ≠ spec_first_visible_match [cexFrameOuter, cexFrameInner] EMAIL_INPUT_SELECTORS := by
  refine ⟨rfl, rfl, by decide⟩

/-- Claim C3 amended: the email-input locator returns the first *matching*
element — visibility is not consulted at selection time — scanning contexts
outer-to-inner and, within each context, candidates in declared priority
order: it equals the head of the flattened spec-side search order. At most
one element is returned (the result is an `Option`), and when two contexts
each contain a match the outer-context match is returned, both immediate
from this equation. -/
theorem C3_email_locator_first_match (frames : List Frame) (selectors : List Selector) :
    locate_email frames selectors = spec_first_match frames selectors := by
  induction frames with
  | nil => rfl
  | cons f rest ih =>
      have hf := find_email_in_frame_eq_head f selectors
      cases hq : spec_flat_query f selectors with
      | nil =>
          rw [hq] at hf
          simp only [List.head?_nil] at hf
          simp only [locate_email, hf, spec_first_match, spec_search_order, hq,
            List.map_nil, List.nil_append]
          exact ih
      | cons e es =>
          rw [hq] at hf
          simp only [List.head?_cons] at hf
          simp [locate_email, hf, spec_first_match, spec_search_order, hq]

/-- Claim C4 counterexample: when no context/candidate pair matches the
email input, `perform_spin` does not report a non-exceptional "not found"
result — it raises (line 286 of the source), observable as an error with
the wheel-not-available message. -/
theorem C4_counterexample :
    perform_spin "user@example.com" noWheelPage
        = Except.error { msg := wheelNotAvailableMsg }
    ∧ (perform_spin "user@example.com" noWheelPage).isOk = false :=
  ⟨rfl, rfl⟩

/-- Claim C4 amended: when no context/candidate pair matches, `perform_spin`
raises a generic exception with the fixed wheel-not-available message; the
outcome is distinguishable from navigation-timeout, visibility-timeout and
submit-button failures only because `"not available"` occurs as a substring
of its lowercased message and not of theirs. -/
theorem C4_not_found_raises_distinct_message (email : String) (p : Page)
    (hnav : p.nav_ok = true)
    (hnone : locate_email p.frames EMAIL_INPUT_SELECTORS = none) :
    perform_spin email p = Except.error { msg := wheelNotAvailableMsg }
    ∧ py_str_in "not available" (lowerStr wheelNotAvailableMsg) = true
    ∧ py_str_in "not available" (lowerStr navTimeoutMsg) = false
    ∧ py_str_in "not available" (lowerStr noSpinButtonMsg) = false
    ∧ py_str_in "not available" (lowerStr waitVisibleTimeoutMsg) = false := by
  refine ⟨?_, by decide, by decide, by decide, by decide⟩
  simp [perform_spin, hnav, hnone]

/-- Witness for the amended C4 at a concrete page without an email input. -/
theorem C4_not_found_raises_distinct_message_witness :
    perform_spin "witness@example.com" noWheelPage
        = Except.error { msg := wheelNotAvailableMsg }
    ∧ py_str_in "not available" (lowerStr wheelNotAvailableMsg) = true
    ∧ py_str_in "not available" (lowerStr navTimeoutMsg) = false
    ∧ py_str_in "not available" (lowerStr noSpinButtonMsg) = false
    ∧ py_str_in "not available" (lowerStr waitVisibleTimeoutMsg) = false :=
  C4_not_found_raises_distinct_message "witness@example.com" noWheelPage rfl rfl

/-- Claim C5: once a run reaches the spin attempt, the process exits 0 on a
successful run and on the "target not yet available" outcome (no email input
in any frame), and exits 1 on any other failure — in particular when the
submit control is never located and on a navigation failure. The generic
clauses show the split is exactly on whether `"not available"` occurs in the
lowercased exception message. -/
theorem C5_exit_codes (a : Args) (env : Option String) (randSrc : List Nat)
    (now : ℚ) (file : Option SpinRecord) (p : Page) (email : String)
    (hres : resolve_email a env randSrc = some email)
    (hgate : a.force = true ∨ a.test = true ∨ should_spin now file = Except.ok true) :
    ((perform_spin email p).isOk = true →
      (main_run a env randSrc now file p).exit_code = 0)
    ∧ (∀ e : PyExn, perform_spin email p = Except.error e →
        py_str_in "not available" (lowerStr e.msg) = true →
        (main_run a env randSrc now file p).exit_code = 0)
    ∧ (∀ e : PyExn, perform_spin email p = Except.error e →
        py_str_in "not available" (lowerStr e.msg) = false →
        (main_run a env randSrc now file p).exit_code = 1)
    ∧ (p.nav_ok = true → locate_email p.frames EMAIL_INPUT_SELECTORS = none →
        (main_run a env randSrc now file p).exit_code = 0)
    ∧ (p.nav_ok = false → (main_run a env randSrc now file p).exit_code = 1)
    ∧ (∀ (tf : Frame) (el : Element), p.nav_ok = true →
        locate_email p.frames EMAIL_INPUT_SELECTORS = some (tf, el) →
        el.visible = true → find_button tf SPIN_BUTTON_SELECTORS = none →
        (main_run a env randSrc now file p).exit_code = 1) := by
  have hmain := main_run_reaches_attempt a env randSrc now file p email hres hgate
  rw [hmain]
  refine ⟨?_, ?_, ?_, ?_, ?_, ?_⟩
  · intro h
    cases hps : perform_spin email p with
    | ok r => exact run_attempt_exit_code_ok a email now file p _ r hps
    | error e => rw [hps] at h; exact absurd h (by simp [Except.isOk, Except.toBool])
  · intro e hps hsub
    unfold run_attempt
    rw [hps]
    simp [hsub]
  · intro e hps hsub
    unfold run_attempt
    rw [hps]
    simp [hsub]
  · intro hnav hnone
    have hps : perform_spin email p = Except.error { msg := wheelNotAvailableMsg } := by
      simp [perform_spin, hnav, hnone]
    unfold run_attempt
    rw [hps]
    simp [show py_str_in "not available" (lowerStr wheelNotAvailableMsg) = true from by decide]
  · intro hnav
    have hps : perform_spin email p = Except.error { msg := navTimeoutMsg } := by
      simp [perform_spin, hnav]
    unfold run_attempt
    rw [hps]
    simp [show py_str_in "not available" (lowerStr navTimeoutMsg) = false from by decide]
  · intro tf el hnav hsome hvis hbtn
    have hps : perform_spin email p = Except.error { msg := noSpinButtonMsg } := by
      simp [perform_spin, hnav, hsome, hvis, hbtn]
    unfold run_attempt
    rw [hps]
    simp [show py_str_in "not available" (lowerStr noSpinButtonMsg) = false from by decide]

/-- Witness for C5: a forced run against a page without the wheel exits 0. -/
theorem C5_exit_codes_witness :
    (main_run { test := false, force := true } (some "user@example.com") [] 0
        none noWheelPage).exit_code = 0 :=
  (C5_exit_codes { test := false, force := true } (some "user@example.com") [] 0
      none noWheelPage "user@example.com" rfl (Or.inl rfl)).2.2.2.1 rfl rfl

/-- Claim C6 counterexample: a successful non-forced run in test mode does
not write the persisted record — it exits 0 with the spin attempted, yet the
file keeps its stale timestamp instead of the fresh record `save_last_spin`
would write. So neither "every successful run overwrites the record" nor
"the file is written at the end of a successful non-forced run" holds. -/
theorem C6_counterexample :
    main_run { test := true, force := false } none [] 100
        (some { last_spin := StoredTimestamp.valid 0, result := none }) goodPage
      = { exit_code := 0,
          file := some { last_spin := StoredTimestamp.valid 0, result := none },
          attempted := true, gate_checked := false }
    ∧ (some { last_spin := StoredTimestamp.valid 0, result := none } : Option SpinRecord)
        ≠ some (save_last_spin 100 (scrape_result goodPage)) := by
  refine ⟨rfl, by decide⟩

/-- Claim C6 amended: every successful *non-test* run (forced or not)
overwrites the persisted record wholesale with a fresh timestamp and exits
0, even when no result text was captured (`r = none`, the result field is
then null); test-mode runs never write it. -/
theorem C6_nontest_success_overwrites (a : Args) (env : Option String)
    (randSrc : List Nat) (now : ℚ) (file : Option SpinRecord) (p : Page)
    (email : String) (r : Option String)
    (htest : a.test = false)
    (hres : resolve_email a env randSrc = some email)
    (hgate : a.force = true ∨ should_spin now file = Except.ok true)
    (hspin : perform_spin email p = Except.ok r) :
    (main_run a env randSrc now file p).file = some (save_last_spin now r)
    ∧ (main_run a env randSrc now file p).exit_code = 0
    ∧ save_last_spin now r = { last_spin := StoredTimestamp.valid now, result := r } := by
  have hmain := main_run_reaches_attempt a env randSrc now file p email hres
    (hgate.elim Or.inl (fun h => Or.inr (Or.inr h)))
  rw [hmain]
  unfold run_attempt
  rw [hspin]
  refine ⟨?_, ?_, rfl⟩ <;> simp [htest]

/-- Witness for the amended C6: a forced non-test run on a page with no
result text still overwrites the record, with a null result field. -/
theorem C6_nontest_success_overwrites_witness :
    (main_run { test := false, force := true } (some "user@example.com") [] 7
        none goodPageNoResult).file = some (save_last_spin 7 none)
    ∧ (main_run { test := false, force := true } (some "user@example.com") [] 7
        none goodPageNoResult).exit_code = 0
    ∧ save_last_spin 7 none = { last_spin := StoredTimestamp.valid 7, result := none } :=
  C6_nontest_success_overwrites { test := false, force := true }
    (some "user@example.com") [] 7 none goodPageNoResult "user@example.com" none
    rfl rfl (Or.inl rfl) rfl

/-- Claim C7: a test-mode run never mutates the persisted record — whatever
path the run takes, the file contents after the run equal the contents
before it. -/
theorem C7_test_mode_never_writes (a : Args) (env : Option String)
    (randSrc : List Nat) (now : ℚ) (file : Option SpinRecord) (p : Page)
    (htest : a.test = true) :
    (main_run a env randSrc now file p).file = file := by
  unfold main_run
  have hres : resolve_email a env randSrc = some (generate_random_email randSrc) := by
    simp [resolve_email, htest]
  rw [hres]
  have hc : (!a.force && !a.test) = false := by simp [htest]
  simp only [hc, Bool.false_eq_true, if_false]
  exact run_attempt_file_test_mode a _ now file p false htest

/-- Witness for C7 at a concrete stored record and successful page. -/
theorem C7_test_mode_never_writes_witness :
    (main_run { test := true, force := false } none [] 3
        (some { last_spin := StoredTimestamp.valid 0, result := some "x" }) goodPage).file
      = some { last_spin := StoredTimestamp.valid 0, result := some "x" } :=
  C7_test_mode_never_writes { test := true, force := false } none [] 3
    (some { last_spin := StoredTimestamp.valid 0, result := some "x" }) goodPage rfl

/-- Claim C8: for every stored state — any timestamp, none, even a malformed
one — a run with `--force` (and a resolvable email) bypasses the eligibility
gate entirely and proceeds to the spin attempt. -/
theorem C8_force_bypasses_gate (a : Args) (env : Option String)
    (randSrc : List Nat) (now : ℚ) (file : Option SpinRecord) (p : Page)
    (email : String)
    (hforce : a.force = true)
    (hres : resolve_email a env randSrc = some email) :
    (main_run a env randSrc now file p).attempted = true
    ∧ (main_run a env randSrc now file p).gate_checked = false := by
  unfold main_run
  rw [hres]
  have hc : (!a.force && !a.test) = false := by simp [hforce]
  simp [hc, run_attempt_attempted, run_attempt_gate_checked]

/-- Witness for C8: a forced run proceeds even over a malformed stored
timestamp that would make the gate raise. -/
theorem C8_force_bypasses_gate_witness :
    (main_run { test := false, force := true } (some "user@example.com") [] 0
        (some { last_spin := StoredTimestamp.malformed "junk", result := none })
        goodPage).attempted = true
    ∧ (main_run { test := false, force := true } (some "user@example.com") [] 0
        (some { last_spin := StoredTimestamp.malformed "junk", result := none })
        goodPage).gate_checked = false :=
  C8_force_bypasses_gate { test := false, force := true } (some "user@example.com") [] 0
    (some { last_spin := StoredTimestamp.malformed "junk", result := none })
    goodPage "user@example.com" rfl rfl

/-- Claim C9: the test flag alone also bypasses the eligibility gate — a
test-mode run never consults the gate and always proceeds to the spin
attempt regardless of the stored state; conversely, whenever the gate is
consulted, neither `--force` nor `--test` was set. -/
theorem C9_test_alone_bypasses_gate (a : Args) (env : Option String)
    (randSrc : List Nat) (now : ℚ) (file : Option SpinRecord) (p : Page) :
    (a.test = true →
      (main_run a env randSrc now file p).gate_checked = false
      ∧ (main_run a env randSrc now file p).attempted = true)
    ∧ ((main_run a env randSrc now file p).gate_checked = true →
      a.force = false ∧ a.test = false) := by
  constructor
  · intro htest
    constructor
    · rw [main_run_gate_checked_eq]; simp [htest]
    · unfold main_run
      have hres : resolve_email a env randSrc = some (generate_random_email randSrc) := by
        simp [resolve_email, htest]
      rw [hres]
      have hc : (!a.force && !a.test) = false := by simp [htest]
      simp [hc, run_attempt_attempted]
  · intro h
    rw [main_run_gate_checked_eq] at h
    simp only [Bool.and_eq_true, Bool.not_eq_true'] at h
    exact ⟨h.2.1, h.2.2⟩

/-- Witness for C9: a test run whose stored timestamp equals the current
instant (nothing has elapsed) still skips the gate and attempts the spin. -/
theorem C9_test_alone_bypasses_gate_witness :
    (main_run { test := true, force := false } none [] 2
        (some { last_spin := StoredTimestamp.valid 2, result := none }) goodPage).gate_checked
      = false
    ∧ (main_run { test := true, force := false } none [] 2
        (some { last_spin := StoredTimestamp.valid 2, result := none }) goodPage).attempted
      = true :=
  (C9_test_alone_bypasses_gate { test := true, force := false } none [] 2
      (some { last_spin := StoredTimestamp.valid 2, result := none }) goodPage).1 rfl

/-- Claim C10: the disposable test identifier is deterministic —
`generate_random_email` returns the same fixed address for every state of
the random source, despite sampling ten random characters internally. -/
theorem C10_random_email_constant (r1 r2 : List Nat) :
    generate_random_email r1 = "ginaf97689@noihse.com"
    ∧ generate_random_email r1 = generate_random_email r2 :=
  ⟨rfl, rfl⟩

end LuckyPaw
